import Mathlib

/-!
# Subscriptions service: month codec, request mapper, repository, handlers

A shallow embedding of `internal/api/subscriptions.go` and
`internal/subscription/repository.go`.

Conventions of the embedding
* A Go `string` is a Lean `String`: the texts handled here are sequences of
  Unicode code points (the JSON decoder only produces valid UTF-8).  The
  byte-indexed helpers of package `time` only ever look for ASCII digits and
  ASCII literals, for which byte positions and code-point positions agree.
* A Go `error` built with `errors.New` is its message.
* A `time.Time` is its calendar reading in UTC together with its location.
* `int64` fields hold an `Int`; the program only compares them.
-/

namespace Subscriptions

/-! ## Package `unicode` / `strings` -/

/-- Go `unicode.IsSpace`: the Latin-1 switch, then the `White_Space` range table. -/
def isSpace (c : Char) : Bool :=
  let r := c.toNat
  if r ≤ 0xFF then
    r == 0x09 || r == 0x0A || r == 0x0B || r == 0x0C || r == 0x0D || r == 0x20
      || r == 0x85 || r == 0xA0
  else
    r == 0x1680 || (0x2000 ≤ r && r ≤ 0x200A) || r == 0x2028 || r == 0x2029
      || r == 0x202F || r == 0x205F || r == 0x3000

/-- Go `strings.TrimSpace`: the text without its leading and trailing white space. -/
def TrimSpace (s : String) : String :=
  String.mk ((s.data.dropWhile isSpace).reverse.dropWhile isSpace).reverse

/-- Go `strings.ToUpper`: the rune-wise image under `unicode.ToUpper`, whose case
table is the parameter `upper`. -/
def ToUpper (upper : Char → Char) (s : String) : String :=
  String.mk (s.data.map upper)

/-! ## Package `time` -/

/-- A `*time.Location`, as far as the program tells locations apart. -/
inductive Location where
  | UTC
  | Local
deriving DecidableEq, Repr

/-- A `time.Time`: the reading of the instant on the UTC calendar and clock, and
the location attached to the value. -/
structure Time where
  year : Int
  month : Int
  day : Int
  hour : Int
  min : Int
  sec : Int
  nsec : Int
  loc : Location
deriving DecidableEq, Repr

/-- The zero value `time.Time{}`: January 1, year 1, 00:00:00 UTC. -/
def Time.zero : Time := ⟨1, 1, 1, 0, 0, 0, 0, Location.UTC⟩

/-- Go `time.norm`: carries `lo` into `hi` so that `0 ≤ lo < base`. -/
def norm (hi lo base : Int) : Int × Int :=
  let p1 : Int × Int :=
    if lo < 0 then
      let n := Int.tdiv (-lo - 1) base + 1
      (hi - n, lo + n * base)
    else (hi, lo)
  if p1.2 ≥ base then
    let n := Int.tdiv p1.2 base
    (p1.1 + n, p1.2 - n * base)
  else p1

/-- Go `time.Date` for a location of offset zero.  The month is normalized into
the year as in the source; the day and the clock fields are stored as given,
which is exact for the arguments `1, 0, 0, 0, 0` of every call in this program. -/
def Date (year month day hour min sec nsec : Int) (loc : Location) : Time :=
  let ym := norm year (month - 1) 12
  ⟨ym.1, ym.2 + 1, day, hour, min, sec, nsec, loc⟩

/-- Go `Time.Year`, read on a value located in UTC. -/
def Time.Year (t : Time) : Int := t.year

/-- Go `Time.Month`, read on a value located in UTC. -/
def Time.Month (t : Time) : Int := t.month

/-- Go `Time.IsZero`: the instant is January 1, year 1, 00:00:00 UTC. -/
def Time.IsZero (t : Time) : Bool :=
  t.year == 1 && t.month == 1 && t.day == 1 && t.hour == 0 && t.min == 0
    && t.sec == 0 && t.nsec == 0

/-- Go `Time.UTC`: the same instant with the location set to UTC. -/
def Time.UTC (t : Time) : Time := { t with loc := Location.UTC }

/-- The decimal digit character of `d < 10`. -/
def digitChar (d : Nat) : Char := Char.ofNat (48 + d % 10)

/-- Two decimal digits of `u`, most significant first. -/
def twoDigits (u : Nat) : List Char := [digitChar (u / 10), digitChar u]

/-- Four decimal digits of `u`, most significant first. -/
def fourDigits (u : Nat) : List Char :=
  [digitChar (u / 1000), digitChar (u / 100), digitChar (u / 10), digitChar u]

/-- Go `time.appendInt`: a minus sign for a negative `x`, then the decimal digits
of its magnitude padded with zeros to at least `width` digits.  The two- and
four-digit fast paths are those of the source. -/
def appendInt (x : Int) (width : Nat) : List Char :=
  let u := x.natAbs
  let sign : List Char := if x < 0 then ['-'] else []
  if width = 2 ∧ u < 100 then sign ++ twoDigits u
  else if width = 4 ∧ u < 10000 then sign ++ fourDigits u
  else
    let ds := Nat.toDigits 10 u
    sign ++ List.replicate (width - ds.length) '0' ++ ds

/-- Go `Time.Format("2006-01")` on a value located in UTC: the long year, the
literal dash, the zero-padded month. -/
def Time.Format_2006_01 (t : Time) : String :=
  String.mk (appendInt t.year 4 ++ ['-'] ++ appendInt t.month 2)

/-- Failures of `time.Parse`. -/
inductive ParseError where
  | bad
  | extraText
  | outOfRange
deriving DecidableEq, Repr

/-- The test `'0' <= c && c <= '9'` of package `time`. -/
def isDig (c : Char) : Bool := 48 ≤ c.toNat && c.toNat ≤ 57

/-- Go `time.isDigit`: position `i` exists in `s` and holds an ASCII digit. -/
def isDigit (s : List Char) (i : Nat) : Bool :=
  match s.get? i with
  | none => false
  | some c => isDig c

/-- The value `c - '0'` of a digit character. -/
def digitVal (c : Char) : Nat := c.toNat - 48

/-- Go `time.getnum`: one or two leading digits (`fixed` demands two) and the rest. -/
def getnum (s : List Char) (fixed : Bool) : Except ParseError (Int × List Char) :=
  if !isDigit s 0 then Except.error ParseError.bad
  else if !isDigit s 1 then
    if fixed then Except.error ParseError.bad
    else Except.ok ((digitVal (s.headD '0') : Int), s.drop 1)
  else
    Except.ok ((digitVal (s.headD '0') * 10 + digitVal ((s.drop 1).headD '0') : Nat), s.drop 2)

/-- Go `time.leadingInt`: the leading digits of `s` as a number, with the rest;
fails when the number passes `2^63`. -/
def leadingInt : List Char → Nat → Except ParseError (Nat × List Char)
  | [], x => Except.ok (x, [])
  | c :: rest, x =>
    if isDig c then
      if x > 2 ^ 63 / 10 then Except.error ParseError.bad
      else
        let x1 := x * 10 + digitVal c
        if x1 > 2 ^ 63 then Except.error ParseError.bad
        else leadingInt rest x1
    else Except.ok (x, c :: rest)

/-- Go `time.atoi`: an optional sign and digits up to the end of `s`. -/
def atoi (s : List Char) : Except ParseError Int :=
  let neg : Bool := decide (s.head? = some '-')
  let body : List Char :=
    if s.head? = some '-' ∨ s.head? = some '+' then s.drop 1 else s
  match leadingInt body 0 with
  | Except.error e => Except.error e
  | Except.ok (q, rem) =>
    if rem ≠ [] then Except.error ParseError.bad
    else
      let x : Int := if q < 2 ^ 63 then (q : Int) else (q : Int) - 2 ^ 64
      Except.ok (if neg then -x else x)

/-- Go `time.skip` for a literal `pre` without blanks (neither layout of this
program holds one): `value` must start with `pre`, which is removed. -/
def skip : List Char → List Char → Except ParseError (List Char)
  | value, [] => Except.ok value
  | [], _ :: _ => Except.error ParseError.bad
  | v :: vs, p :: ps => if v = p then skip vs ps else Except.error ParseError.bad

/-- The layout elements `time.nextStdChunk` finds in the layouts of this program. -/
inductive Std where
  | stdLongYear
  | stdZeroMonth
deriving DecidableEq, Repr

/-- A layout as `time.nextStdChunk` cuts it: literal prefix and element, in
order, then the closing literal. -/
structure Layout where
  chunks : List (List Char × Std)
  tail : List Char

/-- The layout `"01-2006"`. -/
def layout_01_2006 : Layout := ⟨[([], Std.stdZeroMonth), (['-'], Std.stdLongYear)], []⟩

/-- The layout `"2006-01"`. -/
def layout_2006_01 : Layout := ⟨[([], Std.stdLongYear), (['-'], Std.stdZeroMonth)], []⟩

/-- The fields `time.parse` builds up, and the text still to read. -/
structure ParseAcc where
  year : Int
  month : Int
  value : List Char

/-- One arm of the `switch std & stdMask` of `time.parse`. -/
def parseStd (std : Std) (acc : ParseAcc) : Except ParseError ParseAcc :=
  match std with
  | Std.stdLongYear =>
    if acc.value.length < 4 || !isDigit acc.value 0 then Except.error ParseError.bad
    else
      match atoi (acc.value.take 4) with
      | Except.error e => Except.error e
      | Except.ok y => Except.ok { acc with year := y, value := acc.value.drop 4 }
  | Std.stdZeroMonth =>
    match getnum acc.value true with
    | Except.error e => Except.error e
    | Except.ok (m, rest) =>
      if m ≤ 0 ∨ 12 < m then Except.error ParseError.outOfRange
      else Except.ok { acc with month := m, value := rest }

/-- The loop of `time.parse`, one layout element per round. -/
def parseChunks : List (List Char × Std) → ParseAcc → Except ParseError ParseAcc
  | [], acc => Except.ok acc
  | (pre, std) :: rest, acc =>
    match skip acc.value pre with
    | Except.error e => Except.error e
    | Except.ok v =>
      match parseStd std { acc with value := v } with
      | Except.error e => Except.error e
      | Except.ok acc1 => parseChunks rest acc1

/-- Go `time.isLeap`. -/
def isLeap (year : Int) : Bool := year % 4 == 0 && (year % 100 != 0 || year % 400 == 0)

/-- Go `time.daysIn`. -/
def daysIn (m year : Int) : Int :=
  if m == 2 && isLeap year then 29
  else ([31, 28, 31, 30, 31, 30, 31, 31, 30, 31, 30, 31] : List Int).getD (m - 1).toNat 0

/-- Go `time.Parse` for a layout without day, clock or zone elements. -/
def Parse (layout : Layout) (value : String) : Except ParseError Time :=
  match parseChunks layout.chunks ⟨0, -1, value.data⟩ with
  | Except.error e => Except.error e
  | Except.ok acc =>
    match skip acc.value layout.tail with
    | Except.error e => Except.error e
    | Except.ok v =>
      if v ≠ [] then Except.error ParseError.extraText
      else
        let month : Int := if acc.month < 0 then 1 else acc.month
        let day : Int := 1
        if day < 1 ∨ day > daysIn month acc.year then Except.error ParseError.outOfRange
        else Except.ok (Date acc.year month day 0 0 0 0 Location.UTC)

/-! ## `internal/api/subscriptions.go`: the month codec -/

/-- The `for _, layout := range layouts` loop of `parseMonth`. -/
def parseMonth.loop (value : String) : List Layout → Except String Time
  | [] => Except.error "invalid month format"
  | layout :: rest =>
    match Parse layout value with
    | Except.ok t => Except.ok (Date t.Year t.Month 1 0 0 0 0 Location.UTC)
    | Except.error _ => parseMonth.loop value rest

/-- Source `parseMonth`. -/
def parseMonth (value : String) : Except String Time :=
  let value := TrimSpace value
  if value = "" then Except.error "month is required"
  else parseMonth.loop value [layout_01_2006, layout_2006_01]

/-- Source `formatMonth`. -/
def formatMonth (t : Time) : String :=
  if t.IsZero then "" else t.UTC.Format_2006_01

/-! ## `internal/subscription/model.go` -/

/-- A `uuid.UUID`: sixteen bytes, read as one number. -/
structure UUID where
  val : Nat
deriving DecidableEq, Repr

/-- The zero value `uuid.Nil`. -/
def UUID.Nil : UUID := ⟨0⟩

/-- Source `subscription.Subscription`. -/
structure Subscription where
  ID : UUID
  UserID : String
  Plan : String
  AmountCents : Int
  Currency : String
  BillingPeriod : Time
  CreatedAt : Time
  UpdatedAt : Time
deriving DecidableEq, Repr

/-! ## `internal/api/subscriptions.go`: the mapper -/

/-- Source `createSubscriptionRequest`. -/
structure createSubscriptionRequest where
  UserID : String
  Plan : String
  AmountCents : Int
  Currency : String
  BillingPeriod : String
deriving DecidableEq, Repr

/-- Source `subscriptionResponse`. -/
structure subscriptionResponse where
  ID : UUID
  UserID : String
  Plan : String
  AmountCents : Int
  Currency : String
  BillingPeriod : String
  CreatedAt : Time
  UpdatedAt : Time
deriving DecidableEq, Repr

/-- Source `summaryResponse`. -/
structure summaryResponse where
  Month : String
  TotalAmountCents : Int
deriving DecidableEq, Repr

/-- Source `SubscriptionHandler.mapModelToResponse`. -/
def mapModelToResponse (sub : Subscription) : subscriptionResponse :=
  { ID := sub.ID
    UserID := sub.UserID
    Plan := sub.Plan
    AmountCents := sub.AmountCents
    Currency := sub.Currency
    BillingPeriod := formatMonth sub.BillingPeriod
    CreatedAt := sub.CreatedAt
    UpdatedAt := sub.UpdatedAt }

/-- Source `SubscriptionHandler.mapRequestToModel`; `upper` is the case table of
`unicode.ToUpper`.  The fields the struct literal leaves out hold their zero
values. -/
def mapRequestToModel (upper : Char → Char) (req : createSubscriptionRequest) :
    Except String Subscription :=
  if TrimSpace req.UserID = "" then Except.error "user_id is required"
  else if TrimSpace req.Plan = "" then Except.error "plan is required"
  else if req.AmountCents < 0 then Except.error "amount_cents must be non-negative"
  else if TrimSpace req.Currency = "" then Except.error "currency is required"
  else
    match parseMonth req.BillingPeriod with
    | Except.error _ => Except.error "billing_period must be in MM-YYYY or YYYY-MM format"
    | Except.ok period =>
      Except.ok
        { ID := UUID.Nil
          UserID := TrimSpace req.UserID
          Plan := TrimSpace req.Plan
          AmountCents := req.AmountCents
          Currency := ToUpper upper (TrimSpace req.Currency)
          BillingPeriod := period
          CreatedAt := Time.zero
          UpdatedAt := Time.zero }

/-! ## `internal/subscription/repository.go` -/

/-- An error coming out of the `pgx` driver: whether `errors.Is(err, pgx.ErrNoRows)`
holds of it, and whatever else it carries. -/
structure StoreError where
  isNoRows : Bool
  detail : String
deriving DecidableEq, Repr

/-- The `pgxpool.Pool` as the repository uses it: one entry per SQL statement of
`repository.go`, giving the outcome of running it (`QueryRow(...).Scan(...)`,
`Query(...)` with the rows and the final `rows.Err()`, or `Exec(...)` with
`RowsAffected()`) on a store in state `σ`, and the state afterwards. -/
structure Pool (σ : Type) where
  insertReturning : Subscription → σ → Except StoreError (UUID × Time × Time) × σ
  selectByID : UUID → σ → Except StoreError Subscription × σ
  selectAll : σ → Except StoreError (List (Except StoreError Subscription) × Option StoreError) × σ
  updateReturning : Subscription → σ → Except StoreError Time × σ
  deleteByID : UUID → σ → Except StoreError Int × σ
  sumByPeriod : Time → σ → Except StoreError Int × σ

/-- The `error` values the repository returns: its sentinel `ErrNotFound`, or a
driver error handed on as it came. -/
inductive RepoError where
  | ErrNotFound
  | driver (e : StoreError)
deriving DecidableEq, Repr

/-- The test `errors.Is(err, subscription.ErrNotFound)`. -/
def RepoError.isNotFound : RepoError → Bool
  | RepoError.ErrNotFound => true
  | RepoError.driver _ => false

/-- Source `Repository.Create`; the record it fills in place is returned. -/
def Repository.Create {σ : Type} (pool : Pool σ) (sub : Subscription) (st : σ) :
    Except RepoError Subscription × σ :=
  match pool.insertReturning sub st with
  | (Except.error e, st1) => (Except.error (RepoError.driver e), st1)
  | (Except.ok (id, created, updated), st1) =>
    (Except.ok { sub with ID := id, CreatedAt := created, UpdatedAt := updated }, st1)

/-- Source `Repository.Get`. -/
def Repository.Get {σ : Type} (pool : Pool σ) (id : UUID) (st : σ) :
    Except RepoError Subscription × σ :=
  match pool.selectByID id st with
  | (Except.error e, st1) =>
    if e.isNoRows then (Except.error RepoError.ErrNotFound, st1)
    else (Except.error (RepoError.driver e), st1)
  | (Except.ok sub, st1) => (Except.ok sub, st1)

/-- The `for rows.Next()` loop of `Repository.List`. -/
def Repository.List.scan :
    List (Except StoreError Subscription) → List Subscription → Except RepoError (List Subscription)
  | [], result => Except.ok result
  | Except.error e :: _, _ => Except.error (RepoError.driver e)
  | Except.ok sub :: rows, result => Repository.List.scan rows (result ++ [sub])

/-- Source `Repository.List`. -/
def Repository.List {σ : Type} (pool : Pool σ) (st : σ) :
    Except RepoError (List Subscription) × σ :=
  match pool.selectAll st with
  | (Except.error e, st1) => (Except.error (RepoError.driver e), st1)
  | (Except.ok (rows, rowsErr), st1) =>
    match Repository.List.scan rows [] with
    | Except.error e => (Except.error e, st1)
    | Except.ok result =>
      match rowsErr with
      | some e => (Except.error (RepoError.driver e), st1)
      | none => (Except.ok result, st1)

/-- Source `Repository.Update`; the record it fills in place is returned. -/
def Repository.Update {σ : Type} (pool : Pool σ) (sub : Subscription) (st : σ) :
    Except RepoError Subscription × σ :=
  match pool.updateReturning sub st with
  | (Except.error e, st1) =>
    if e.isNoRows then (Except.error RepoError.ErrNotFound, st1)
    else (Except.error (RepoError.driver e), st1)
  | (Except.ok updated, st1) => (Except.ok { sub with UpdatedAt := updated }, st1)

/-- Source `Repository.Delete`. -/
def Repository.Delete {σ : Type} (pool : Pool σ) (id : UUID) (st : σ) :
    Except RepoError Unit × σ :=
  match pool.deleteByID id st with
  | (Except.error e, st1) => (Except.error (RepoError.driver e), st1)
  | (Except.ok rowsAffected, st1) =>
    if rowsAffected = 0 then (Except.error RepoError.ErrNotFound, st1)
    else (Except.ok (), st1)

/-- Source `Repository.MonthlySummary`. -/
def Repository.MonthlySummary {σ : Type} (pool : Pool σ) (period : Time) (st : σ) :
    Except RepoError Int × σ :=
  match pool.sumByPeriod period st with
  | (Except.error e, st1) => (Except.error (RepoError.driver e), st1)
  | (Except.ok total, st1) => (Except.ok total, st1)

/-! ## `internal/api/subscriptions.go`: the handlers -/

/-- What a handler reads from `*http.Request`: the path parameter `id`, the raw
body, and the query parameter `month`. -/
structure Request where
  idParam : String
  body : String
  monthQuery : String
deriving DecidableEq, Repr

/-- Library code the handlers call: `uuid.Parse`, the strict JSON decoding of
`decodeRequest` (a `json.Decoder` with `DisallowUnknownFields`), and the case
table of `unicode.ToUpper`. -/
structure Lib where
  uuidParse : String → Except String UUID
  decodeRequest : String → Except String createSubscriptionRequest
  upper : Char → Char

/-- The value handed to `writeJSON`. -/
inductive Payload where
  | record (r : subscriptionResponse)
  | records (rs : List subscriptionResponse)
  | summary (s : summaryResponse)
deriving DecidableEq, Repr

/-- What a handler writes to the `http.ResponseWriter`. -/
inductive Body where
  | text (s : String)
  | json (p : Payload)
  | empty
deriving DecidableEq, Repr

/-- The response of a handler: status code and body. -/
structure Response where
  status : Nat
  body : Body
deriving DecidableEq, Repr

/-- Go `http.Error`: the status code and the message followed by a newline. -/
def httpError (msg : String) (code : Nat) : Response := ⟨code, Body.text (msg ++ "\n")⟩

/-- Source `writeJSON`. -/
def writeJSON (status : Nat) (payload : Payload) : Response := ⟨status, Body.json payload⟩

/-- The methods of `Repository`. -/
inductive Op where
  | Create
  | List
  | Get
  | Update
  | Delete
  | MonthlySummary
deriving DecidableEq, Repr

/-- One repository call of a handler: the method, and the error it returned. -/
structure Event where
  op : Op
  err : Option RepoError
deriving DecidableEq, Repr

/-- The store, together with the record of the repository calls made so far
(the record is ghost state: the program does not read it). -/
structure World (σ : Type) where
  store : σ
  trace : List Event

/-- The world a handler starts in: store state `st`, no call made yet. -/
def World.start {σ : Type} (st : σ) : World σ := ⟨st, []⟩

/-- The error of a result, if any. -/
def errorOf {α : Type} : Except RepoError α → Option RepoError
  | Except.error e => some e
  | Except.ok _ => none

/-- A repository call `h.repo.<op>(...)` of a handler: runs the method on the
store and records the call. -/
def call {σ α : Type} (op : Op) (method : σ → Except RepoError α × σ) (w : World σ) :
    Except RepoError α × World σ :=
  let r := method w.store
  (r.1, ⟨r.2, w.trace ++ [⟨op, errorOf r.1⟩]⟩)

/-- Source `SubscriptionHandler.Create`. -/
def SubscriptionHandler.Create {σ : Type} (lib : Lib) (pool : Pool σ) (r : Request)
    (w : World σ) : Response × World σ :=
  match lib.decodeRequest r.body with
  | Except.error _ => (httpError "invalid request body" 400, w)
  | Except.ok req =>
    match mapRequestToModel lib.upper req with
    | Except.error err => (httpError err 400, w)
    | Except.ok sub =>
      match call Op.Create (Repository.Create pool sub) w with
      | (Except.error _, w1) => (httpError "failed to create subscription" 500, w1)
      | (Except.ok sub1, w1) => (writeJSON 201 (Payload.record (mapModelToResponse sub1)), w1)

/-- Source `SubscriptionHandler.List`. -/
def SubscriptionHandler.List {σ : Type} (pool : Pool σ) (w : World σ) : Response × World σ :=
  match call Op.List (Repository.List pool) w with
  | (Except.error _, w1) => (httpError "failed to list subscriptions" 500, w1)
  | (Except.ok subs, w1) => (writeJSON 200 (Payload.records (subs.map mapModelToResponse)), w1)

/-- Source `SubscriptionHandler.Get`. -/
def SubscriptionHandler.Get {σ : Type} (lib : Lib) (pool : Pool σ) (r : Request)
    (w : World σ) : Response × World σ :=
  match lib.uuidParse r.idParam with
  | Except.error _ => (httpError "invalid subscription id" 400, w)
  | Except.ok id =>
    match call Op.Get (Repository.Get pool id) w with
    | (Except.error err, w1) =>
      if err.isNotFound then (httpError "subscription not found" 404, w1)
      else (httpError "failed to fetch subscription" 500, w1)
    | (Except.ok sub, w1) => (writeJSON 200 (Payload.record (mapModelToResponse sub)), w1)

/-- Source `SubscriptionHandler.Update`. -/
def SubscriptionHandler.Update {σ : Type} (lib : Lib) (pool : Pool σ) (r : Request)
    (w : World σ) : Response × World σ :=
  match lib.uuidParse r.idParam with
  | Except.error _ => (httpError "invalid subscription id" 400, w)
  | Except.ok id =>
    match lib.decodeRequest r.body with
    | Except.error _ => (httpError "invalid request body" 400, w)
    | Except.ok req =>
      match mapRequestToModel lib.upper req with
      | Except.error err => (httpError err 400, w)
      | Except.ok sub0 =>
        let sub := { sub0 with ID := id }
        match call Op.Update (Repository.Update pool sub) w with
        | (Except.error err, w1) =>
          if err.isNotFound then (httpError "subscription not found" 404, w1)
          else (httpError "failed to update subscription" 500, w1)
        | (Except.ok _, w1) =>
          match call Op.Get (Repository.Get pool id) w1 with
          | (Except.error _, w2) => (httpError "failed to fetch subscription" 500, w2)
          | (Except.ok updated, w2) =>
            (writeJSON 200 (Payload.record (mapModelToResponse updated)), w2)

/-- Source `SubscriptionHandler.Delete`. -/
def SubscriptionHandler.Delete {σ : Type} (lib : Lib) (pool : Pool σ) (r : Request)
    (w : World σ) : Response × World σ :=
  match lib.uuidParse r.idParam with
  | Except.error _ => (httpError "invalid subscription id" 400, w)
  | Except.ok id =>
    match call Op.Delete (Repository.Delete pool id) w with
    | (Except.error err, w1) =>
      if err.isNotFound then (httpError "subscription not found" 404, w1)
      else (httpError "failed to delete subscription" 500, w1)
    | (Except.ok _, w1) => (⟨204, Body.empty⟩, w1)

/-- Source `SubscriptionHandler.Summary`. -/
def SubscriptionHandler.Summary {σ : Type} (pool : Pool σ) (r : Request)
    (w : World σ) : Response × World σ :=
  if r.monthQuery = "" then (httpError "month query parameter is required" 400, w)
  else
    match parseMonth r.monthQuery with
    | Except.error _ => (httpError "invalid month format" 400, w)
    | Except.ok period =>
      match call Op.MonthlySummary (Repository.MonthlySummary pool period) w with
      | (Except.error _, w1) => (httpError "failed to fetch summary" 500, w1)
      | (Except.ok total, w1) =>
        (writeJSON 200 (Payload.summary ⟨formatMonth period, total⟩), w1)

/-- The handlers that `RegisterRoutes` mounts. -/
inductive Endpoint where
  | Create
  | List
  | Get
  | Update
  | Delete
  | Summary
deriving DecidableEq, Repr

/-- Source `SubscriptionHandler.RegisterRoutes`, as the dispatch it sets up: the
handler of each endpoint, run on a request from store state `st`. -/
def serve {σ : Type} (lib : Lib) (pool : Pool σ) (ep : Endpoint) (r : Request) (st : σ) :
    Response × World σ :=
  match ep with
  | Endpoint.Create => SubscriptionHandler.Create lib pool r (World.start st)
  | Endpoint.List => SubscriptionHandler.List pool (World.start st)
  | Endpoint.Get => SubscriptionHandler.Get lib pool r (World.start st)
  | Endpoint.Update => SubscriptionHandler.Update lib pool r (World.start st)
  | Endpoint.Delete => SubscriptionHandler.Delete lib pool r (World.start st)
  | Endpoint.Summary => SubscriptionHandler.Summary pool r (World.start st)

/-! ## Reading the two accepted texts, stated on the characters -/

/-- The number written by two digit characters. -/
def val2 (a b : Char) : Nat := digitVal a * 10 + digitVal b

/-- The number written by four digit characters. -/
def val4 (a b c d : Char) : Nat :=
  digitVal a * 1000 + digitVal b * 100 + digitVal c * 10 + digitVal d

/-- The text is exactly two digits forming a month 01..12, a dash, and four
digits: the year and month it names. -/
def readMonthYear : List Char → Option (Nat × Nat)
  | [a, b, x, c, d, e, f] =>
    if x = '-' ∧ isDig a ∧ isDig b ∧ isDig c ∧ isDig d ∧ isDig e ∧ isDig f
        ∧ 1 ≤ val2 a b ∧ val2 a b ≤ 12 then
      some (val4 c d e f, val2 a b)
    else none
  | _ => none

/-- The text is exactly four digits, a dash, and two digits forming a month
01..12: the year and month it names. -/
def readYearMonth : List Char → Option (Nat × Nat)
  | [c, d, e, f, x, a, b] =>
    if x = '-' ∧ isDig a ∧ isDig b ∧ isDig c ∧ isDig d ∧ isDig e ∧ isDig f
        ∧ 1 ≤ val2 a b ∧ val2 a b ≤ 12 then
      some (val4 c d e f, val2 a b)
    else none
  | _ => none

/-- The first day of month `m` of year `y`, at midnight, in UTC. -/
def firstOfMonth (y m : Nat) : Time := ⟨y, m, 1, 0, 0, 0, 0, Location.UTC⟩

/-- The message a handler answers with when the repository call `op` fails with
an error other than `ErrNotFound`. -/
def failureMessage : Op → String
  | Op.Create => "failed to create subscription"
  | Op.List => "failed to list subscriptions"
  | Op.Get => "failed to fetch subscription"
  | Op.Update => "failed to update subscription"
  | Op.Delete => "failed to delete subscription"
  | Op.MonthlySummary => "failed to fetch summary"

/-- The validation rules of the mapper in the order the specification lists
them: whether the request satisfies the rule, and the message of a violation. -/
def validationRules (req : createSubscriptionRequest) : List (Bool × String) :=
  [ (decide (TrimSpace req.UserID ≠ ""), "user_id is required"),
    (decide (TrimSpace req.Plan ≠ ""), "plan is required"),
    (decide (0 ≤ req.AmountCents), "amount_cents must be non-negative"),
    (decide (TrimSpace req.Currency ≠ ""), "currency is required"),
    ((parseMonth req.BillingPeriod).toOption.isSome,
      "billing_period must be in MM-YYYY or YYYY-MM format") ]

/-- The message of the first violated rule, in that order, if any rule is
violated. -/
def firstViolation (req : createSubscriptionRequest) : Option String :=
  ((validationRules req).find? (fun r => !r.1)).map Prod.snd

/-! ## Concrete inputs -/

/-- A sample request: padded fields, a lower-case currency, March 2024. -/
def sampleRequest : createSubscriptionRequest :=
  { UserID := " u1 ", Plan := "pro", AmountCents := 500, Currency := " usd",
    BillingPeriod := "03-2024" }

/-- The record `mapRequestToModel` builds from `sampleRequest`. -/
def sampleRecord : Subscription :=
  { ID := UUID.Nil, UserID := "u1", Plan := "pro", AmountCents := 500, Currency := "USD",
    BillingPeriod := ⟨2024, 3, 1, 0, 0, 0, 0, Location.UTC⟩, CreatedAt := Time.zero,
    UpdatedAt := Time.zero }

/-- A library for the concrete runs: the identifier text `"7"` parses, the body
`"good"` decodes to `sampleRequest`, the body `"negative"` to the same request
with amount_cents -1, any other body fails to decode. -/
def sampleLib : Lib :=
  { uuidParse := fun s => if s = "7" then Except.ok ⟨7⟩ else Except.error "invalid UUID"
    decodeRequest := fun b =>
      if b = "good" then Except.ok sampleRequest
      else if b = "negative" then Except.ok { sampleRequest with AmountCents := -1 }
      else Except.error "json: cannot decode"
    upper := Char.toUpper }

/-- A store every statement of which fails with the driver error `detail`. -/
def failingPool (detail : String) : Pool Unit :=
  { insertReturning := fun _ st => (Except.error ⟨false, detail⟩, st)
    selectByID := fun _ st => (Except.error ⟨false, detail⟩, st)
    selectAll := fun st => (Except.error ⟨false, detail⟩, st)
    updateReturning := fun _ st => (Except.error ⟨false, detail⟩, st)
    deleteByID := fun _ st => (Except.error ⟨false, detail⟩, st)
    sumByPeriod := fun _ st => (Except.error ⟨false, detail⟩, st) }

/-- A store holding at most the one row of identifier 7; the state tells whether
the row is there.  A concurrent request deletes the row right after an update
of it has gone through. -/
def racingPool : Pool Bool :=
  { insertReturning := fun _ st => (Except.error ⟨false, "duplicate key"⟩, st)
    selectByID := fun _ present =>
      if present then (Except.ok { sampleRecord with ID := ⟨7⟩ }, present)
      else (Except.error ⟨true, "no rows in result set"⟩, present)
    selectAll := fun present =>
      (Except.ok (if present then [Except.ok { sampleRecord with ID := ⟨7⟩ }] else [], none),
        present)
    updateReturning := fun _ present =>
      if present then (Except.ok ⟨2024, 3, 5, 12, 0, 0, 0, Location.UTC⟩, false)
      else (Except.error ⟨true, "no rows in result set"⟩, present)
    deleteByID := fun _ present => (Except.ok (if present then 1 else 0), false)
    sumByPeriod := fun _ present => (Except.ok (if present then 500 else 0), present) }

/-- The response of endpoint `ep` to request `r` on the store that fails every
statement with the driver error `detail`. -/
def failedRun (ep : Endpoint) (r : Request) (detail : String) : Response :=
  (serve sampleLib (failingPool detail) ep r ()).1

deriving instance DecidableEq for Except

/-! ## Lemmas on the library functions -/

theorem isDig_bounds {c : Char} (h : isDig c = true) : 48 ≤ c.toNat ∧ c.toNat ≤ 57 := by
  simpa [isDig] using h

theorem digitVal_le {c : Char} (h : isDig c = true) : digitVal c ≤ 9 := by
  have := isDig_bounds h
  unfold digitVal
  omega

theorem isDig_ne_minus {c : Char} (h : isDig c = true) : c ≠ '-' := by
  rintro rfl
  exact absurd h (by decide)

theorem isDig_ne_plus {c : Char} (h : isDig c = true) : c ≠ '+' := by
  rintro rfl
  exact absurd h (by decide)

theorem leadingInt_digit (c : Char) (rest : List Char) (x : Nat) (hc : isDig c = true)
    (hx : x < 10 ^ 17) : leadingInt (c :: rest) x = leadingInt rest (x * 10 + digitVal c) := by
  have hv := digitVal_le hc
  have h1 : ¬ 922337203685477580 < x := by omega
  have h2 : ¬ 9223372036854775808 < x * 10 + digitVal c := by omega
  simp [leadingInt, hc, h1, h2]

theorem leadingInt_stop (c : Char) (rest : List Char) (x : Nat) (hc : isDig c = false) :
    leadingInt (c :: rest) x = Except.ok (x, c :: rest) := by
  simp [leadingInt, hc]

theorem atoi_four (c d e f : Char) (hc : isDig c = true) :
    atoi [c, d, e, f] =
      if isDig d ∧ isDig e ∧ isDig f then Except.ok (val4 c d e f : Int)
      else Except.error ParseError.bad := by
  have hm := isDig_ne_minus hc
  have hp := isDig_ne_plus hc
  have hvc := digitVal_le hc
  unfold atoi
  simp only [List.head?_cons, Option.some.injEq, hm, hp, or_self, if_false]
  rw [leadingInt_digit c _ 0 hc (by norm_num)]
  by_cases hd : isDig d = true
  · have hvd := digitVal_le hd
    rw [leadingInt_digit d _ _ hd (by omega)]
    by_cases he : isDig e = true
    · have hve := digitVal_le he
      rw [leadingInt_digit e _ _ he (by omega)]
      by_cases hf : isDig f = true
      · have hvf := digitVal_le hf
        rw [leadingInt_digit f _ _ hf (by omega)]
        have hlt : (((0 * 10 + digitVal c) * 10 + digitVal d) * 10 + digitVal e) * 10
            + digitVal f < 2 ^ 63 := by norm_num; omega
        simp only [leadingInt, hd, he, hf, and_self, if_true, ne_eq, not_true_eq_false,
          if_false, hlt, decide_False, Bool.false_eq_true]
        congr 1
        unfold val4
        push_cast
        ring
      · simp only [Bool.not_eq_true] at hf
        rw [leadingInt_stop f _ _ hf]
        simp [hf]
    · simp only [Bool.not_eq_true] at he
      rw [leadingInt_stop e _ _ he]
      simp [he]
  · simp only [Bool.not_eq_true] at hd
    rw [leadingInt_stop d _ _ hd]
    simp [hd]

theorem getnum_fixed_two (a b : Char) (rest : List Char) :
    getnum (a :: b :: rest) true =
      if isDig a ∧ isDig b then Except.ok (((val2 a b : Nat) : Int), rest)
      else Except.error ParseError.bad := by
  by_cases ha : isDig a = true <;> by_cases hb : isDig b = true <;>
    simp [getnum, isDigit, ha, hb, val2]

theorem getnum_fixed_short (s : List Char) (h : s.length < 2) :
    getnum s true = Except.error ParseError.bad := by
  rcases s with _ | ⟨a, _ | ⟨b, rest⟩⟩
  · simp [getnum, isDigit]
  · by_cases ha : isDig a = true <;> simp [getnum, isDigit, ha]
  · simp at h
    omega

theorem parseStd_longYear_four (y m : Int) (c d e f : Char) (rest : List Char) :
    parseStd Std.stdLongYear ⟨y, m, c :: d :: e :: f :: rest⟩ =
      if isDig c ∧ isDig d ∧ isDig e ∧ isDig f then
        Except.ok ⟨(val4 c d e f : Nat), m, rest⟩
      else Except.error ParseError.bad := by
  by_cases hc : isDig c = true
  · simp only [parseStd, isDigit, List.length_cons, List.take, List.drop, List.get?, hc]
    rw [atoi_four c d e f hc]
    by_cases hd : isDig d = true <;> by_cases he : isDig e = true <;>
      by_cases hf : isDig f = true <;> simp [hd, he, hf]
  · simp [parseStd, isDigit, hc]

theorem parseStd_longYear_short (y m : Int) (l : List Char) (h : l.length < 4) :
    parseStd Std.stdLongYear ⟨y, m, l⟩ = Except.error ParseError.bad := by
  simp [parseStd, h]

theorem parseStd_zeroMonth_two (y m : Int) (a b : Char) (rest : List Char) :
    parseStd Std.stdZeroMonth ⟨y, m, a :: b :: rest⟩ =
      if isDig a ∧ isDig b then
        if 1 ≤ val2 a b ∧ val2 a b ≤ 12 then Except.ok ⟨y, (val2 a b : Nat), rest⟩
        else Except.error ParseError.outOfRange
      else Except.error ParseError.bad := by
  simp only [parseStd, getnum_fixed_two]
  by_cases hab : isDig a = true ∧ isDig b = true
  · simp only [hab, and_self, if_true]
    by_cases hr : 1 ≤ val2 a b ∧ val2 a b ≤ 12
    · have : ¬ (((val2 a b : Nat) : Int) ≤ 0 ∨ (12 : Int) < ((val2 a b : Nat) : Int)) := by omega
      rw [if_neg this, if_pos hr]
    · have : (((val2 a b : Nat) : Int) ≤ 0 ∨ (12 : Int) < ((val2 a b : Nat) : Int)) := by omega
      rw [if_pos this, if_neg hr]
  · simp [hab]

theorem parseStd_zeroMonth_short (y m : Int) (l : List Char) (h : l.length < 2) :
    parseStd Std.stdZeroMonth ⟨y, m, l⟩ = Except.error ParseError.bad := by
  simp [parseStd, getnum_fixed_short _ h]

theorem norm_month (y : Int) (m : Nat) (h1 : 1 ≤ m) (h12 : m ≤ 12) :
    norm y ((m : Int) - 1) 12 = (y, (m : Int) - 1) := by
  have ha : ¬ ((m : Int) - 1 < 0) := by omega
  have hb : ¬ ((m : Int) - 1 ≥ 12) := by omega
  simp [norm, ha, hb]

theorem Date_firstOfMonth (y m : Nat) (h1 : 1 ≤ m) (h12 : m ≤ 12) :
    Date y m 1 0 0 0 0 Location.UTC = firstOfMonth y m := by
  simp [Date, norm_month y m h1 h12, firstOfMonth]

theorem daysIn_pos (y : Int) (m : Nat) (h1 : 1 ≤ m) (h12 : m ≤ 12) :
    ¬ ((1 : Int) < 1 ∨ (1 : Int) > daysIn m y) := by
  interval_cases m <;> simp [daysIn]
  split_ifs <;> decide

theorem Parse_01_2006 (v : String) :
    (Parse layout_01_2006 v).toOption =
      (readMonthYear v.data).map (fun p => firstOfMonth p.1 p.2) := by
  obtain ⟨l⟩ := v
  rcases l with _ | ⟨a, _ | ⟨b, _ | ⟨x, _ | ⟨c, _ | ⟨d, _ | ⟨e, _ | ⟨f, _ | ⟨g, rest⟩⟩⟩⟩⟩⟩⟩⟩
  · simp [Parse, layout_01_2006, parseChunks, skip, parseStd_zeroMonth_short, readMonthYear,
      Except.toOption]
  · simp [Parse, layout_01_2006, parseChunks, skip, parseStd_zeroMonth_short, readMonthYear,
      Except.toOption]
  · simp only [Parse, layout_01_2006, parseChunks, skip, parseStd_zeroMonth_two, readMonthYear]
    split_ifs <;> simp [Except.toOption, skip]
  all_goals
    by_cases hab : isDig a = true ∧ isDig b = true
    · by_cases hr : 1 ≤ val2 a b ∧ val2 a b ≤ 12
      · by_cases hx : x = '-'
        · simp only [Parse, layout_01_2006, parseChunks, skip, parseStd_zeroMonth_two,
            readMonthYear, hab, hr, hx, and_self, if_true, true_and]
          first
            | (simp [parseStd_longYear_short, Except.toOption]; done)
            | (by_cases hy : isDig c = true ∧ isDig d = true ∧ isDig e = true ∧ isDig f = true
               · have hm : ¬ (((val2 a b : Nat) : Int) < 0) := by omega
                 simp only [parseStd_longYear_four, hy, and_self, if_true, ne_eq,
                   not_true_eq_false, if_false, hm, daysIn_pos _ _ hr.1 hr.2,
                   Date_firstOfMonth _ _ hr.1 hr.2, Except.toOption, Option.map]
               · simp [parseStd_longYear_four, hy, Except.toOption])
            | (by_cases hy : isDig c = true ∧ isDig d = true ∧ isDig e = true ∧ isDig f = true
               · simp [parseStd_longYear_four, hy, Except.toOption]
               · simp [parseStd_longYear_four, hy, Except.toOption])
        · simp [Parse, layout_01_2006, parseChunks, skip, parseStd_zeroMonth_two,
            readMonthYear, hab, hr, hx, Except.toOption]
      · simp [Parse, layout_01_2006, parseChunks, skip, parseStd_zeroMonth_two,
            readMonthYear, hab, hr, Except.toOption]
    · simp [Parse, layout_01_2006, parseChunks, skip, parseStd_zeroMonth_two,
            readMonthYear, hab, Except.toOption]
      try (rw [if_neg (fun h => hab ⟨h.2.1, h.2.2.1⟩)])

theorem Parse_2006_01 (v : String) :
    (Parse layout_2006_01 v).toOption =
      (readYearMonth v.data).map (fun p => firstOfMonth p.1 p.2) := by
  obtain ⟨l⟩ := v
  rcases l with _ | ⟨c, _ | ⟨d, _ | ⟨e, _ | ⟨f, _ | ⟨x, _ | ⟨a, _ | ⟨b, _ | ⟨g, rest⟩⟩⟩⟩⟩⟩⟩⟩
  · simp [Parse, layout_2006_01, parseChunks, skip, parseStd_longYear_short, readYearMonth,
      Except.toOption]
  · simp [Parse, layout_2006_01, parseChunks, skip, parseStd_longYear_short, readYearMonth,
      Except.toOption]
  · simp [Parse, layout_2006_01, parseChunks, skip, parseStd_longYear_short, readYearMonth,
      Except.toOption]
  · simp [Parse, layout_2006_01, parseChunks, skip, parseStd_longYear_short, readYearMonth,
      Except.toOption]
  · by_cases hy : isDig c = true ∧ isDig d = true ∧ isDig e = true ∧ isDig f = true <;>
      simp [Parse, layout_2006_01, parseChunks, skip, parseStd_longYear_four, readYearMonth,
        Except.toOption, hy]
  all_goals
    by_cases hy : isDig c = true ∧ isDig d = true ∧ isDig e = true ∧ isDig f = true
    · by_cases hx : x = '-'
      · simp only [Parse, layout_2006_01, parseChunks, skip, parseStd_longYear_four,
          readYearMonth, hy, hx, and_self, if_true, true_and]
        first
          | (simp [parseStd_zeroMonth_short, Except.toOption]; done)
          | (by_cases hab : isDig a = true ∧ isDig b = true
             · by_cases hr : 1 ≤ val2 a b ∧ val2 a b ≤ 12
               · have hm : ¬ (((val2 a b : Nat) : Int) < 0) := by omega
                 simp only [parseStd_zeroMonth_two, hab, hr, and_self, if_true, ne_eq,
                   not_true_eq_false, if_false, hm, daysIn_pos _ _ hr.1 hr.2,
                   Date_firstOfMonth _ _ hr.1 hr.2, Except.toOption, Option.map]
               · simp [parseStd_zeroMonth_two, hab, hr, Except.toOption]
             · simp [parseStd_zeroMonth_two, hab, Except.toOption]
               try (rw [if_neg (fun h => hab ⟨h.1, h.2.1⟩)]))
          | (by_cases hab : isDig a = true ∧ isDig b = true
             · by_cases hr : 1 ≤ val2 a b ∧ val2 a b ≤ 12
               · simp [parseStd_zeroMonth_two, hab, hr, Except.toOption]
               · simp [parseStd_zeroMonth_two, hab, hr, Except.toOption]
             · simp [parseStd_zeroMonth_two, hab, Except.toOption])
      · simp [Parse, layout_2006_01, parseChunks, skip, parseStd_longYear_four,
          readYearMonth, hy, hx, Except.toOption]
    · simp [Parse, layout_2006_01, parseChunks, skip, parseStd_longYear_four,
          readYearMonth, hy, Except.toOption]
      try (rw [if_neg (fun h => hy ⟨h.2.2.2.1, h.2.2.2.2.1, h.2.2.2.2.2.1, h.2.2.2.2.2.2.1⟩)])

theorem val4_lt {c d e f : Char} (hc : isDig c = true) (hd : isDig d = true)
    (he : isDig e = true) (hf : isDig f = true) : val4 c d e f < 10000 := by
  have := digitVal_le hc
  have := digitVal_le hd
  have := digitVal_le he
  have := digitVal_le hf
  unfold val4
  omega

theorem readMonthYear_range {l : List Char} {p : Nat × Nat} (h : readMonthYear l = some p) :
    1 ≤ p.2 ∧ p.2 ≤ 12 ∧ p.1 < 10000 := by
  unfold readMonthYear at h
  split at h
  · split_ifs at h with hc
    obtain ⟨_, _, _, h3, h4, h5, h6, h7, h8⟩ := hc
    cases h
    exact ⟨h7, h8, val4_lt h3 h4 h5 h6⟩
  · cases h

theorem readYearMonth_range {l : List Char} {p : Nat × Nat} (h : readYearMonth l = some p) :
    1 ≤ p.2 ∧ p.2 ≤ 12 ∧ p.1 < 10000 := by
  unfold readYearMonth at h
  split at h
  · split_ifs at h with hc
    obtain ⟨_, _, _, h3, h4, h5, h6, h7, h8⟩ := hc
    cases h
    exact ⟨h7, h8, val4_lt h3 h4 h5 h6⟩
  · cases h

theorem toOption_some {ε α : Type} {e : Except ε α} {a : α} (h : e.toOption = some a) :
    e = Except.ok a := by
  cases e <;> simp_all [Except.toOption]

theorem toOption_none {ε α : Type} {e : Except ε α} (h : e.toOption = none) :
    ∃ err, e = Except.error err := by
  cases e <;> simp_all [Except.toOption]

theorem redate_firstOfMonth (y m : Nat) (h1 : 1 ≤ m) (h12 : m ≤ 12) :
    Date (firstOfMonth y m).Year (firstOfMonth y m).Month 1 0 0 0 0 Location.UTC
      = firstOfMonth y m := by
  simpa [Time.Year, Time.Month, firstOfMonth] using Date_firstOfMonth y m h1 h12

/-- The function `parseMonth` computes, stated on the characters of its input. -/
theorem parseMonth_eq (s : String) :
    parseMonth s =
      if TrimSpace s = "" then Except.error "month is required"
      else
        match readMonthYear (TrimSpace s).data with
        | some p => Except.ok (firstOfMonth p.1 p.2)
        | none =>
          match readYearMonth (TrimSpace s).data with
          | some p => Except.ok (firstOfMonth p.1 p.2)
          | none => Except.error "invalid month format" := by
  unfold parseMonth
  by_cases h0 : TrimSpace s = ""
  · simp [h0]
  · simp only [h0, if_false, parseMonth.loop]
    have hA := Parse_01_2006 (TrimSpace s)
    have hB := Parse_2006_01 (TrimSpace s)
    cases hmy : readMonthYear (TrimSpace s).data with
    | some p =>
      rw [hmy] at hA
      obtain ⟨h1, h12, _⟩ := readMonthYear_range hmy
      rw [toOption_some hA]
      simp only [redate_firstOfMonth _ _ h1 h12]
    | none =>
      rw [hmy] at hA
      obtain ⟨err, herr⟩ := toOption_none hA
      rw [herr]
      cases hym : readYearMonth (TrimSpace s).data with
      | some p =>
        rw [hym] at hB
        obtain ⟨h1, h12, _⟩ := readYearMonth_range hym
        rw [toOption_some hB]
        simp only [redate_firstOfMonth _ _ h1 h12]
      | none =>
        rw [hym] at hB
        obtain ⟨err2, herr2⟩ := toOption_none hB
        rw [herr2]

theorem digitChar_facts (k : Nat) :
    isDig (digitChar k) = true ∧ digitVal (digitChar k) = k % 10
      ∧ isSpace (digitChar k) = false := by
  have h : k % 10 < 10 := Nat.mod_lt _ (by norm_num)
  unfold digitChar
  generalize k % 10 = r at h
  interval_cases r <;> decide

theorem dropWhile_all {p : Char → Bool} (pre rest : List Char) (h : ∀ c ∈ pre, p c = true) :
    (pre ++ rest).dropWhile p = rest.dropWhile p := by
  induction pre with
  | nil => rfl
  | cons a pre ih =>
    have ha : p a = true := h a (List.mem_cons_self _ _)
    simp only [List.cons_append, List.dropWhile_cons, ha, if_true]
    exact ih (fun c hc => h c (List.mem_cons_of_mem _ hc))

/-- Trimming removes the white space around a text that starts and ends with a
character that is not white space. -/
theorem TrimSpace_padded (pre mid post : List Char) (a z : Char)
    (hpre : ∀ c ∈ pre, isSpace c = true) (hpost : ∀ c ∈ post, isSpace c = true)
    (ha : isSpace a = false) (hz : isSpace z = false) :
    TrimSpace (String.mk (pre ++ (a :: mid ++ [z]) ++ post)) = String.mk (a :: mid ++ [z]) := by
  unfold TrimSpace
  congr 1
  show (((pre ++ (a :: mid ++ [z]) ++ post).dropWhile isSpace).reverse.dropWhile isSpace).reverse
    = a :: mid ++ [z]
  rw [List.append_assoc, dropWhile_all pre _ hpre]
  have h1 : ((a :: mid ++ [z]) ++ post).dropWhile isSpace = (a :: mid ++ [z]) ++ post := by
    simp [List.dropWhile_cons, ha]
  rw [h1]
  have h2 : ((a :: mid ++ [z]) ++ post).reverse = post.reverse ++ (z :: (a :: mid).reverse) := by
    simp
  rw [h2, dropWhile_all post.reverse _ (fun c hc => hpost c (List.mem_reverse.mp hc))]
  simp [List.dropWhile_cons, hz]

theorem val2_twoDigits (M : Nat) (h : M < 100) :
    val2 (digitChar (M / 10)) (digitChar M) = M := by
  simp only [val2, (digitChar_facts _).2.1]
  omega

theorem val4_fourDigits (Y : Nat) (h : Y < 10000) :
    val4 (digitChar (Y / 1000)) (digitChar (Y / 100)) (digitChar (Y / 10)) (digitChar Y) = Y := by
  simp only [val4, (digitChar_facts _).2.1]
  omega

theorem readMonthYear_render (Y M : Nat) (hY : Y < 10000) (hM1 : 1 ≤ M) (hM12 : M ≤ 12) :
    readMonthYear (twoDigits M ++ '-' :: fourDigits Y) = some (Y, M) := by
  simp [readMonthYear, twoDigits, fourDigits, (digitChar_facts _).1,
    val2_twoDigits M (by omega), val4_fourDigits Y hY, hM1, hM12]

theorem readYearMonth_render (Y M : Nat) (hY : Y < 10000) (hM1 : 1 ≤ M) (hM12 : M ≤ 12) :
    readYearMonth (fourDigits Y ++ '-' :: twoDigits M) = some (Y, M) := by
  simp [readYearMonth, twoDigits, fourDigits, (digitChar_facts _).1,
    val2_twoDigits M (by omega), val4_fourDigits Y hY, hM1, hM12]

theorem readMonthYear_yearFirst (Y M : Nat) :
    readMonthYear (fourDigits Y ++ '-' :: twoDigits M) = none := by
  have h := isDig_ne_minus (digitChar_facts (Y / 10)).1
  simp [readMonthYear, twoDigits, fourDigits, h]

theorem parseMonth_monthFirst (Y M : Nat) (pre post : List Char) (hY : Y < 10000)
    (hM1 : 1 ≤ M) (hM12 : M ≤ 12) (hpre : ∀ c ∈ pre, isSpace c = true)
    (hpost : ∀ c ∈ post, isSpace c = true) :
    parseMonth (String.mk (pre ++ (twoDigits M ++ '-' :: fourDigits Y) ++ post))
      = Except.ok (firstOfMonth Y M) := by
  have ht : TrimSpace (String.mk (pre ++ (twoDigits M ++ '-' :: fourDigits Y) ++ post))
      = String.mk (twoDigits M ++ '-' :: fourDigits Y) :=
    TrimSpace_padded pre [digitChar M, '-', digitChar (Y / 1000), digitChar (Y / 100),
      digitChar (Y / 10)] post (digitChar (M / 10)) (digitChar Y) hpre hpost
      (digitChar_facts _).2.2 (digitChar_facts _).2.2
  rw [parseMonth_eq, ht]
  have hne : String.mk (twoDigits M ++ '-' :: fourDigits Y) ≠ "" := by
    intro h
    have := congrArg String.length h
    simp [twoDigits, fourDigits] at this
  rw [if_neg hne]
  simp only [readMonthYear_render Y M hY hM1 hM12]

theorem parseMonth_yearFirst (Y M : Nat) (pre post : List Char) (hY : Y < 10000)
    (hM1 : 1 ≤ M) (hM12 : M ≤ 12) (hpre : ∀ c ∈ pre, isSpace c = true)
    (hpost : ∀ c ∈ post, isSpace c = true) :
    parseMonth (String.mk (pre ++ (fourDigits Y ++ '-' :: twoDigits M) ++ post))
      = Except.ok (firstOfMonth Y M) := by
  have ht : TrimSpace (String.mk (pre ++ (fourDigits Y ++ '-' :: twoDigits M) ++ post))
      = String.mk (fourDigits Y ++ '-' :: twoDigits M) :=
    TrimSpace_padded pre [digitChar (Y / 100), digitChar (Y / 10), digitChar Y, '-',
      digitChar (M / 10)] post (digitChar (Y / 1000)) (digitChar M) hpre hpost
      (digitChar_facts _).2.2 (digitChar_facts _).2.2
  rw [parseMonth_eq, ht]
  have hne : String.mk (fourDigits Y ++ '-' :: twoDigits M) ≠ "" := by
    intro h
    have := congrArg String.length h
    simp [twoDigits, fourDigits] at this
  rw [if_neg hne]
  simp only [readMonthYear_yearFirst, readYearMonth_render Y M hY hM1 hM12]

/-- C1: for every year `Y` in 0000..9999 and month `M` in 01..12, `parseMonth` of
the text `MM-YYYY` and of the text `YYYY-MM`, each inside any white space,
succeeds, and both return the same value: year `Y`, month `M`, day 1, 00:00:00,
location UTC. -/
theorem parseMonth_both_forms (Y M : Nat) (pre post pre2 post2 : List Char)
    (hY : Y < 10000) (hM1 : 1 ≤ M) (hM12 : M ≤ 12)
    (hpre : ∀ c ∈ pre, isSpace c = true) (hpost : ∀ c ∈ post, isSpace c = true)
    (hpre2 : ∀ c ∈ pre2, isSpace c = true) (hpost2 : ∀ c ∈ post2, isSpace c = true) :
    parseMonth (String.mk (pre ++ (twoDigits M ++ '-' :: fourDigits Y) ++ post))
        = Except.ok ⟨Y, M, 1, 0, 0, 0, 0, Location.UTC⟩
      ∧ parseMonth (String.mk (pre2 ++ (fourDigits Y ++ '-' :: twoDigits M) ++ post2))
        = Except.ok ⟨Y, M, 1, 0, 0, 0, 0, Location.UTC⟩ :=
  ⟨parseMonth_monthFirst Y M pre post hY hM1 hM12 hpre hpost,
    parseMonth_yearFirst Y M pre2 post2 hY hM1 hM12 hpre2 hpost2⟩

/-- Witness of C1 at March 2024, the month-first text between a blank and a
newline, the year-first text after a tab. -/
theorem parseMonth_both_forms_witness :
    parseMonth " 03-2024\n" = Except.ok ⟨2024, 3, 1, 0, 0, 0, 0, Location.UTC⟩
      ∧ parseMonth "\t2024-03" = Except.ok ⟨2024, 3, 1, 0, 0, 0, 0, Location.UTC⟩ :=
  parseMonth_both_forms 2024 3 [' '] ['\n'] ['\t'] [] (by decide) (by decide) (by decide)
    (by decide) (by decide) (by decide) (by decide)

/-- An accepted input is one of the two texts; the value is the first of the
month it names. -/
theorem parseMonth_ok {s : String} {t : Time} (h : parseMonth s = Except.ok t) :
    ∃ Y M, (readMonthYear (TrimSpace s).data = some (Y, M)
        ∨ readYearMonth (TrimSpace s).data = some (Y, M))
      ∧ Y < 10000 ∧ 1 ≤ M ∧ M ≤ 12 ∧ t = firstOfMonth Y M := by
  rw [parseMonth_eq] at h
  split_ifs at h with h0
  cases hmy : readMonthYear (TrimSpace s).data with
  | some p =>
    obtain ⟨h1, h12, hy⟩ := readMonthYear_range hmy
    rw [hmy] at h
    simp only [Except.ok.injEq] at h
    exact ⟨p.1, p.2, Or.inl rfl, hy, h1, h12, h.symm⟩
  | none =>
    rw [hmy] at h
    cases hym : readYearMonth (TrimSpace s).data with
    | some p =>
      obtain ⟨h1, h12, hy⟩ := readYearMonth_range hym
      rw [hym] at h
      simp only [Except.ok.injEq] at h
      exact ⟨p.1, p.2, Or.inr rfl, hy, h1, h12, h.symm⟩
    | none =>
      rw [hym] at h
      cases h

theorem appendInt_year (Y : Nat) (hY : Y < 10000) : appendInt (Y : Int) 4 = fourDigits Y := by
  have h : ¬ ((Y : Int) < 0) := by omega
  simp [appendInt, h, hY]

theorem appendInt_month (M : Nat) (hM : M < 100) : appendInt (M : Int) 2 = twoDigits M := by
  have h : ¬ ((M : Int) < 0) := by omega
  simp [appendInt, h, hM]

theorem firstOfMonth_IsZero (Y M : Nat) :
    (firstOfMonth Y M).IsZero = true ↔ (Y = 1 ∧ M = 1) := by
  simp [firstOfMonth, Time.IsZero]

/-- What `formatMonth` returns on the first of a month. -/
theorem formatMonth_firstOfMonth (Y M : Nat) (hY : Y < 10000) (hM : M ≤ 12) :
    formatMonth (firstOfMonth Y M) =
      if Y = 1 ∧ M = 1 then "" else String.mk (fourDigits Y ++ '-' :: twoDigits M) := by
  unfold formatMonth
  by_cases hz : Y = 1 ∧ M = 1
  · rw [if_pos ((firstOfMonth_IsZero Y M).mpr hz), if_pos hz]
  · have hz2 : ¬ (firstOfMonth Y M).IsZero = true := fun h => hz ((firstOfMonth_IsZero Y M).mp h)
    rw [if_neg hz2, if_neg hz]
    simp [Time.Format_2006_01, Time.UTC, firstOfMonth, appendInt_year Y hY,
      appendInt_month M (by omega)]

theorem TrimSpace_blank (s : String) (h : ∀ c ∈ s.data, isSpace c = true) :
    TrimSpace s = "" := by
  unfold TrimSpace
  have h1 : s.data.dropWhile isSpace = [] := by
    have := dropWhile_all (p := isSpace) s.data [] h
    simpa using this
  rw [h1]
  rfl

/-- C3: `parseMonth` returns an error for every input that is empty or only white
space, and for every input whose trimmed text is neither two digits forming a
month 01..12, a dash and four digits, nor four digits, a dash and two digits
forming a month 01..12; the error is "month is required" when nothing is left
after trimming and "invalid month format" otherwise. -/
theorem parseMonth_rejects (s : String)
    (h : (∀ c ∈ s.data, isSpace c = true)
      ∨ (readMonthYear (TrimSpace s).data = none ∧ readYearMonth (TrimSpace s).data = none)) :
    parseMonth s = Except.error
      (if TrimSpace s = "" then "month is required" else "invalid month format") := by
  rw [parseMonth_eq]
  by_cases h0 : TrimSpace s = ""
  · simp [h0]
  · rcases h with h | ⟨h1, h2⟩
    · exact absurd (TrimSpace_blank s h) h0
    · simp [h0, h1, h2]

/-- Witness of C3: the inputs `""`, `"2024/03"` and `"13-2024"` are rejected. -/
theorem parseMonth_rejects_witness :
    parseMonth "" = Except.error "month is required"
      ∧ parseMonth "2024/03" = Except.error "invalid month format"
      ∧ parseMonth "13-2024" = Except.error "invalid month format" :=
  ⟨parseMonth_rejects "" (Or.inl (by decide)),
    parseMonth_rejects "2024/03" (Or.inr (by decide)),
    parseMonth_rejects "13-2024" (Or.inr (by decide))⟩

/-- Counterexample to C2 as stated: `parseMonth` accepts `"0001-01"` and
`"01-0001"`, the parsed value is the zero time, and `formatMonth` renders it as
the empty text, not as `"0001-01"`. -/
theorem formatMonth_year_one_january :
    parseMonth "0001-01" = Except.ok ⟨1, 1, 1, 0, 0, 0, 0, Location.UTC⟩
      ∧ parseMonth "01-0001" = Except.ok ⟨1, 1, 1, 0, 0, 0, 0, Location.UTC⟩
      ∧ formatMonth ⟨1, 1, 1, 0, 0, 0, 0, Location.UTC⟩ = ""
      ∧ formatMonth ⟨1, 1, 1, 0, 0, 0, 0, Location.UTC⟩ ≠ "0001-01" := by
  decide

/-- C2, amended: for every input `parseMonth` accepts, in whichever of the two
forms, naming year `Y` and month `M`: unless it names January of year 1,
`formatMonth` of the parsed value is the seven-character text `YYYY-MM` of `Y`
and `M`; for January of year 1 the parsed value is the zero time and
`formatMonth` returns the empty text. -/
theorem formatMonth_of_parsed (s : String) (t : Time) (h : parseMonth s = Except.ok t) :
    ∃ Y M, (readMonthYear (TrimSpace s).data = some (Y, M)
        ∨ readYearMonth (TrimSpace s).data = some (Y, M))
      ∧ (¬ (Y = 1 ∧ M = 1) →
          formatMonth t = String.mk (fourDigits Y ++ '-' :: twoDigits M)
            ∧ (formatMonth t).length = 7)
      ∧ (Y = 1 ∧ M = 1 → t = Time.zero ∧ formatMonth t = "") := by
  obtain ⟨Y, M, hread, hY, _, hM12, rfl⟩ := parseMonth_ok h
  refine ⟨Y, M, hread, ?_, ?_⟩
  · intro hne
    rw [formatMonth_firstOfMonth Y M hY hM12, if_neg hne]
    exact ⟨rfl, rfl⟩
  · intro he
    rw [formatMonth_firstOfMonth Y M hY hM12, if_pos he]
    obtain ⟨rfl, rfl⟩ := he
    exact ⟨rfl, rfl⟩

/-- Witness of the amended C2 at the month-first input `"03-2024"`, which is
rendered as `"2024-03"`. -/
theorem formatMonth_of_parsed_witness :
    parseMonth "03-2024" = Except.ok ⟨2024, 3, 1, 0, 0, 0, 0, Location.UTC⟩
      ∧ formatMonth ⟨2024, 3, 1, 0, 0, 0, 0, Location.UTC⟩ = "2024-03" := by
  have hp : parseMonth "03-2024" = Except.ok ⟨2024, 3, 1, 0, 0, 0, 0, Location.UTC⟩ := by
    decide
  obtain ⟨Y, M, hread, h1, _⟩ := formatMonth_of_parsed "03-2024" _ hp
  have hr1 : readMonthYear (TrimSpace "03-2024").data = some (2024, 3) := by decide
  have hr2 : readYearMonth (TrimSpace "03-2024").data = none := by decide
  rcases hread with hread | hread
  · rw [hr1] at hread
    cases hread
    exact ⟨hp, (h1 (by decide)).1.trans (by decide)⟩
  · rw [hr2] at hread
    cases hread

/-! ## The mapper -/

/-- What an accepted request looks like, and the record built from it. -/
theorem mapRequestToModel_ok {upper : Char → Char} {req : createSubscriptionRequest}
    {rec : Subscription} (h : mapRequestToModel upper req = Except.ok rec) :
    TrimSpace req.UserID ≠ "" ∧ TrimSpace req.Plan ≠ "" ∧ 0 ≤ req.AmountCents
      ∧ TrimSpace req.Currency ≠ ""
      ∧ ∃ period, parseMonth req.BillingPeriod = Except.ok period
        ∧ rec = { ID := UUID.Nil
                  UserID := TrimSpace req.UserID
                  Plan := TrimSpace req.Plan
                  AmountCents := req.AmountCents
                  Currency := ToUpper upper (TrimSpace req.Currency)
                  BillingPeriod := period
                  CreatedAt := Time.zero
                  UpdatedAt := Time.zero } := by
  unfold mapRequestToModel at h
  split_ifs at h with h1 h2 h3 h4
  cases hp : parseMonth req.BillingPeriod with
  | error e => rw [hp] at h; cases h
  | ok period =>
    rw [hp] at h
    simp only [Except.ok.injEq] at h
    exact ⟨h1, h2, by omega, h4, period, rfl, h.symm⟩

/-- C5: `mapRequestToModel` fails exactly when one of the five rules is violated,
and the error is then the message of the first violated rule in the order
user_id, plan, amount_cents, currency, billing_period. -/
theorem mapRequestToModel_fails_iff (upper : Char → Char) (req : createSubscriptionRequest) :
    ((∃ msg, mapRequestToModel upper req = Except.error msg)
        ↔ ∃ r ∈ validationRules req, r.1 = false)
      ∧ ∀ msg, mapRequestToModel upper req = Except.error msg ↔ firstViolation req = some msg := by
  unfold mapRequestToModel firstViolation validationRules
  by_cases h1 : TrimSpace req.UserID = ""
  · simp [h1]
  · by_cases h2 : TrimSpace req.Plan = ""
    · simp [h1, h2]
    · by_cases h3 : req.AmountCents < 0
      · have h3n : ¬ (0 ≤ req.AmountCents) := by omega
        simp [h1, h2, h3, h3n]
      · have h3n : 0 ≤ req.AmountCents := by omega
        by_cases h4 : TrimSpace req.Currency = ""
        · simp [h1, h2, h3, h3n, h4]
        · cases hp : parseMonth req.BillingPeriod with
          | error e => simp [h1, h2, h3, h3n, h4, Except.toOption]
          | ok period => simp [h1, h2, h3, h3n, h4, Except.toOption]

/-- Witness of C5: a request with a negative amount and a blank currency fails
with the message of the amount rule, the first of the two it violates. -/
theorem mapRequestToModel_fails_iff_witness :
    mapRequestToModel Char.toUpper
        { UserID := "u1", Plan := "pro", AmountCents := -1, Currency := "  ",
          BillingPeriod := "03-2024" }
      = Except.error "amount_cents must be non-negative" :=
  ((mapRequestToModel_fails_iff Char.toUpper
      { UserID := "u1", Plan := "pro", AmountCents := -1, Currency := "  ",
        BillingPeriod := "03-2024" }).2 "amount_cents must be non-negative").mpr (by decide)

theorem ToUpper_ne_empty (upper : Char → Char) (s : String) (h : s ≠ "") :
    ToUpper upper s ≠ "" := by
  intro he
  apply h
  have h1 : (ToUpper upper s).data = [] := by rw [he]
  have h2 : s.data = [] := by simpa [ToUpper] using h1
  exact String.ext h2

/-- C6: the record of an accepted request has the trimmed user_id and plan, the
amount of the request (so not negative), the upper-cased trimmed currency (so
not empty), the billing period `parseMonth` returns (day 1, midnight, UTC), and
id, created_at and updated_at at their zero values. -/
theorem mapRequestToModel_record (upper : Char → Char) (req : createSubscriptionRequest)
    (rec : Subscription) (h : mapRequestToModel upper req = Except.ok rec) :
    rec.UserID = TrimSpace req.UserID
      ∧ rec.Plan = TrimSpace req.Plan
      ∧ rec.AmountCents = req.AmountCents ∧ 0 ≤ rec.AmountCents
      ∧ rec.Currency = ToUpper upper (TrimSpace req.Currency) ∧ rec.Currency ≠ ""
      ∧ parseMonth req.BillingPeriod = Except.ok rec.BillingPeriod
      ∧ rec.BillingPeriod.day = 1 ∧ rec.BillingPeriod.hour = 0 ∧ rec.BillingPeriod.min = 0
      ∧ rec.BillingPeriod.sec = 0 ∧ rec.BillingPeriod.nsec = 0
      ∧ rec.BillingPeriod.loc = Location.UTC
      ∧ rec.ID = UUID.Nil ∧ rec.CreatedAt = Time.zero ∧ rec.UpdatedAt = Time.zero := by
  obtain ⟨_, _, h3, h4, period, hp, rfl⟩ := mapRequestToModel_ok h
  obtain ⟨Y, M, _, _, _, _, rfl⟩ := parseMonth_ok hp
  exact ⟨rfl, rfl, rfl, h3, rfl, ToUpper_ne_empty upper _ h4, hp, rfl, rfl, rfl, rfl, rfl, rfl,
    rfl, rfl, rfl⟩

theorem sampleRequest_accepted :
    mapRequestToModel Char.toUpper sampleRequest = Except.ok sampleRecord := by
  decide

/-- Witness of C6 at `sampleRequest`. -/
theorem mapRequestToModel_record_witness :
    mapRequestToModel Char.toUpper sampleRequest = Except.ok sampleRecord
      ∧ sampleRecord.UserID = "u1" ∧ sampleRecord.Currency = "USD"
      ∧ sampleRecord.Currency ≠ "" ∧ sampleRecord.ID = UUID.Nil := by
  have h := mapRequestToModel_record Char.toUpper sampleRequest sampleRecord
    sampleRequest_accepted
  exact ⟨sampleRequest_accepted, h.1.trans (by decide), h.2.2.2.2.1.trans (by decide),
    h.2.2.2.2.2.1, h.2.2.2.2.2.2.2.2.2.2.2.2.2.1⟩

/-- Counterexample to C4 as stated: the request with billing_period `"0001-01"` is
accepted, the rendered billing_period of its record is the empty text, and
`parseMonth` rejects that text instead of returning the record's billing period. -/
theorem roundtrip_year_one_january :
    mapRequestToModel Char.toUpper
        { UserID := "u1", Plan := "pro", AmountCents := 500, Currency := "usd",
          BillingPeriod := "0001-01" }
        = Except.ok
          { ID := UUID.Nil, UserID := "u1", Plan := "pro", AmountCents := 500,
            Currency := "USD", BillingPeriod := ⟨1, 1, 1, 0, 0, 0, 0, Location.UTC⟩,
            CreatedAt := Time.zero, UpdatedAt := Time.zero }
      ∧ (mapModelToResponse
          { ID := UUID.Nil, UserID := "u1", Plan := "pro", AmountCents := 500,
            Currency := "USD", BillingPeriod := ⟨1, 1, 1, 0, 0, 0, 0, Location.UTC⟩,
            CreatedAt := Time.zero, UpdatedAt := Time.zero }).BillingPeriod = ""
      ∧ parseMonth "" = Except.error "month is required" := by
  decide

/-- C4, amended: for every request accepted by `mapRequestToModel`, with record
`rec` whose billing period is not January of year 1 (the zero time), `parseMonth`
of the billing_period text of `mapModelToResponse rec` succeeds and returns
`rec.BillingPeriod`. -/
theorem roundtrip_billing_period (upper : Char → Char) (req : createSubscriptionRequest)
    (rec : Subscription) (h : mapRequestToModel upper req = Except.ok rec)
    (hnz : rec.BillingPeriod ≠ Time.zero) :
    parseMonth (mapModelToResponse rec).BillingPeriod = Except.ok rec.BillingPeriod := by
  obtain ⟨_, _, _, _, period, hp, rfl⟩ := mapRequestToModel_ok h
  obtain ⟨Y, M, _, hY, hM1, hM12, rfl⟩ := parseMonth_ok hp
  have hne : ¬ (Y = 1 ∧ M = 1) := by
    rintro ⟨rfl, rfl⟩
    exact hnz rfl
  show parseMonth (formatMonth (firstOfMonth Y M)) = Except.ok (firstOfMonth Y M)
  rw [formatMonth_firstOfMonth Y M hY hM12, if_neg hne]
  have := parseMonth_yearFirst Y M [] [] hY hM1 hM12 (by simp) (by simp)
  simpa using this

/-- Witness of the amended C4 at `sampleRequest`. -/
theorem roundtrip_billing_period_witness :
    mapRequestToModel Char.toUpper sampleRequest = Except.ok sampleRecord
      ∧ sampleRecord.BillingPeriod ≠ Time.zero
      ∧ (mapModelToResponse sampleRecord).BillingPeriod = "2024-03"
      ∧ parseMonth (mapModelToResponse sampleRecord).BillingPeriod
        = Except.ok sampleRecord.BillingPeriod :=
  ⟨sampleRequest_accepted, by decide, by decide,
    roundtrip_billing_period Char.toUpper sampleRequest sampleRecord
      sampleRequest_accepted (by decide)⟩

/-! ## The repository -/

/-- C10: `Get` and `Update` return `ErrNotFound` exactly when the single-row
result of the store reports no row, and hand on any other store error, which is
not `ErrNotFound`; `Delete` returns `ErrNotFound` exactly when the execute
succeeded with zero rows affected, hands on the error of a failed execute, and
succeeds when at least one row was affected. -/
theorem Repository_classifies {σ : Type} (pool : Pool σ) (id : UUID) (sub : Subscription)
    (st : σ) :
    (((Repository.Get pool id st).1 = Except.error RepoError.ErrNotFound
        ↔ ∃ e, (pool.selectByID id st).1 = Except.error e ∧ e.isNoRows = true)
      ∧ ∀ e, (pool.selectByID id st).1 = Except.error e → e.isNoRows = false →
          (Repository.Get pool id st).1 = Except.error (RepoError.driver e)
            ∧ (RepoError.driver e).isNotFound = false)
    ∧ (((Repository.Update pool sub st).1 = Except.error RepoError.ErrNotFound
        ↔ ∃ e, (pool.updateReturning sub st).1 = Except.error e ∧ e.isNoRows = true)
      ∧ ∀ e, (pool.updateReturning sub st).1 = Except.error e → e.isNoRows = false →
          (Repository.Update pool sub st).1 = Except.error (RepoError.driver e)
            ∧ (RepoError.driver e).isNotFound = false)
    ∧ (((Repository.Delete pool id st).1 = Except.error RepoError.ErrNotFound
        ↔ (pool.deleteByID id st).1 = Except.ok 0)
      ∧ (∀ e, (pool.deleteByID id st).1 = Except.error e →
          (Repository.Delete pool id st).1 = Except.error (RepoError.driver e))
      ∧ ∀ n, (pool.deleteByID id st).1 = Except.ok n → 1 ≤ n →
          (Repository.Delete pool id st).1 = Except.ok ()) := by
  refine ⟨?_, ?_, ?_⟩
  · unfold Repository.Get
    rcases h : pool.selectByID id st with ⟨res, st1⟩
    cases res with
    | error e => cases hn : e.isNoRows <;> simp [hn, RepoError.isNotFound]
    | ok sub1 => simp
  · unfold Repository.Update
    rcases h : pool.updateReturning sub st with ⟨res, st1⟩
    cases res with
    | error e => cases hn : e.isNoRows <;> simp [hn, RepoError.isNotFound]
    | ok t => simp
  · unfold Repository.Delete
    rcases h : pool.deleteByID id st with ⟨res, st1⟩
    cases res with
    | error e => simp
    | ok n =>
      by_cases hn : n = 0
      · simp [hn]
      · simp only [hn, if_false, Except.ok.injEq, false_iff, reduceCtorEq, false_implies,
          implies_true, true_and, not_false_eq_true]

/-- Witness of C10 on the one-row store: `Get` of the absent row is
`ErrNotFound`, `Delete` of the present row succeeds, `Delete` of the absent row
is `ErrNotFound`. -/
theorem Repository_classifies_witness :
    (Repository.Get racingPool ⟨7⟩ false).1 = Except.error RepoError.ErrNotFound
      ∧ (Repository.Delete racingPool ⟨7⟩ true).1 = Except.ok ()
      ∧ (Repository.Delete racingPool ⟨7⟩ false).1 = Except.error RepoError.ErrNotFound :=
  ⟨(Repository_classifies racingPool ⟨7⟩ sampleRecord false).1.1.mpr
      ⟨⟨true, "no rows in result set"⟩, rfl, rfl⟩,
    (Repository_classifies racingPool ⟨7⟩ sampleRecord true).2.2.2.2 1 rfl (by decide),
    (Repository_classifies racingPool ⟨7⟩ sampleRecord false).2.2.1.mpr rfl⟩

/-! ## The handlers -/

/-- A handler whose repository call `op` fails with an error other than
`ErrNotFound` answers 500 with the fixed message of that call. -/
theorem serve_storage_failure {σ : Type} (lib : Lib) (pool : Pool σ) (ep : Endpoint)
    (r : Request) (st : σ) (op : Op) (err : RepoError)
    (h : ⟨op, some err⟩ ∈ (serve lib pool ep r st).2.trace) (hnf : err.isNotFound = false) :
    (serve lib pool ep r st).1 = httpError (failureMessage op) 500 := by
  cases ep
  · -- Create
    simp only [serve, SubscriptionHandler.Create, call, World.start] at h ⊢
    rcases hd : lib.decodeRequest r.body with e | req
    · simp [hd] at h
    · simp only [hd] at h ⊢
      rcases hm : mapRequestToModel lib.upper req with msg | sub
      · simp [hm] at h
      · simp only [hm] at h ⊢
        rcases hc : Repository.Create pool sub st with ⟨res, st1⟩
        cases res with
        | error e2 =>
          simp [hc, errorOf] at h ⊢
          obtain ⟨rfl, rfl⟩ := h
          rfl
        | ok sub1 => simp [hc, errorOf] at h
  · -- List
    simp only [serve, SubscriptionHandler.List, call, World.start] at h ⊢
    rcases hc : Repository.List pool st with ⟨res, st1⟩
    cases res with
    | error e2 =>
      simp [hc, errorOf] at h ⊢
      obtain ⟨rfl, rfl⟩ := h
      rfl
    | ok subs => simp [hc, errorOf] at h
  · -- Get
    simp only [serve, SubscriptionHandler.Get, call, World.start] at h ⊢
    rcases hu : lib.uuidParse r.idParam with e | id
    · simp [hu] at h
    · simp only [hu] at h ⊢
      rcases hc : Repository.Get pool id st with ⟨res, st1⟩
      cases res with
      | error e2 =>
        cases hn : e2.isNotFound
        · simp [hc, errorOf, hn] at h ⊢
          obtain ⟨rfl, rfl⟩ := h
          rfl
        · simp [hc, errorOf, hn] at h
          obtain ⟨rfl, rfl⟩ := h
          rw [hn] at hnf
          cases hnf
      | ok sub => simp [hc, errorOf] at h
  · -- Update
    simp only [serve, SubscriptionHandler.Update, call, World.start] at h ⊢
    rcases hu : lib.uuidParse r.idParam with e | id
    · simp [hu] at h
    · simp only [hu] at h ⊢
      rcases hd : lib.decodeRequest r.body with e | req
      · simp [hd] at h
      · simp only [hd] at h ⊢
        rcases hm : mapRequestToModel lib.upper req with msg | sub
        · simp [hm] at h
        · simp only [hm] at h ⊢
          rcases hc : Repository.Update pool { sub with ID := id } st with ⟨res, st1⟩
          cases res with
          | error e2 =>
            cases hn : e2.isNotFound
            · simp [hc, errorOf, hn] at h ⊢
              obtain ⟨rfl, rfl⟩ := h
              rfl
            · simp [hc, errorOf, hn] at h
              obtain ⟨rfl, rfl⟩ := h
              rw [hn] at hnf
              cases hnf
          | ok sub1 =>
            rcases hg : Repository.Get pool id st1 with ⟨res2, st2⟩
            cases res2 with
            | error e3 =>
              simp [hc, hg, errorOf] at h ⊢
              obtain ⟨rfl, rfl⟩ := h
              rfl
            | ok updated => simp [hc, hg, errorOf] at h
  · -- Delete
    simp only [serve, SubscriptionHandler.Delete, call, World.start] at h ⊢
    rcases hu : lib.uuidParse r.idParam with e | id
    · simp [hu] at h
    · simp only [hu] at h ⊢
      rcases hc : Repository.Delete pool id st with ⟨res, st1⟩
      cases res with
      | error e2 =>
        cases hn : e2.isNotFound
        · simp [hc, errorOf, hn] at h ⊢
          obtain ⟨rfl, rfl⟩ := h
          rfl
        · simp [hc, errorOf, hn] at h
          obtain ⟨rfl, rfl⟩ := h
          rw [hn] at hnf
          cases hnf
      | ok u => simp [hc, errorOf] at h
  · -- Summary
    simp only [serve, SubscriptionHandler.Summary, call, World.start] at h ⊢
    by_cases hq : r.monthQuery = ""
    · simp [hq] at h
    · simp only [hq, if_false] at h ⊢
      rcases hp : parseMonth r.monthQuery with e | period
      · simp [hp] at h
      · simp only [hp] at h ⊢
        rcases hc : Repository.MonthlySummary pool period st with ⟨res, st1⟩
        cases res with
        | error e2 =>
          simp [hc, errorOf] at h ⊢
          obtain ⟨rfl, rfl⟩ := h
          rfl
        | ok total => simp [hc, errorOf] at h

theorem Repository_Create_error {σ : Type} (pool : Pool σ) (sub : Subscription) (st : σ)
    (e : RepoError) (h : (Repository.Create pool sub st).1 = Except.error e) :
    e.isNotFound = false := by
  unfold Repository.Create at h
  rcases hc : pool.insertReturning sub st with ⟨res, st1⟩
  rw [hc] at h
  cases res with
  | error e2 =>
    simp only [Except.error.injEq] at h
    rw [← h]
    rfl
  | ok v => cases h

theorem Repository_List_scan_error (rows : List (Except StoreError Subscription))
    (acc : List Subscription) (e : RepoError)
    (h : Repository.List.scan rows acc = Except.error e) : e.isNotFound = false := by
  induction rows generalizing acc with
  | nil => cases h
  | cons row rows ih =>
    cases row with
    | error e2 =>
      simp only [Repository.List.scan, Except.error.injEq] at h
      rw [← h]
      rfl
    | ok sub => exact ih _ h

theorem Repository_List_error {σ : Type} (pool : Pool σ) (st : σ) (e : RepoError)
    (h : (Repository.List pool st).1 = Except.error e) : e.isNotFound = false := by
  unfold Repository.List at h
  rcases hc : pool.selectAll st with ⟨res, st1⟩
  rw [hc] at h
  cases res with
  | error e2 =>
    simp only [Except.error.injEq] at h
    rw [← h]
    rfl
  | ok v =>
    obtain ⟨rows, rowsErr⟩ := v
    simp only at h
    cases hs : Repository.List.scan rows [] with
    | error e3 =>
      rw [hs] at h
      simp only [Except.error.injEq] at h
      rw [← h]
      exact Repository_List_scan_error rows [] e3 hs
    | ok result =>
      rw [hs] at h
      cases rowsErr with
      | some e4 =>
        simp only [Except.error.injEq] at h
        rw [← h]
        rfl
      | none => cases h

theorem Repository_MonthlySummary_error {σ : Type} (pool : Pool σ) (period : Time) (st : σ)
    (e : RepoError) (h : (Repository.MonthlySummary pool period st).1 = Except.error e) :
    e.isNotFound = false := by
  unfold Repository.MonthlySummary at h
  rcases hc : pool.sumByPeriod period st with ⟨res, st1⟩
  rw [hc] at h
  cases res with
  | error e2 =>
    simp only [Except.error.injEq] at h
    rw [← h]
    rfl
  | ok v => cases h

/-- A handler whose repository call fails with `ErrNotFound` answers 404, the
read-back `Get` of the `Update` handler apart. -/
theorem serve_notFound {σ : Type} (lib : Lib) (pool : Pool σ) (ep : Endpoint)
    (r : Request) (st : σ) (op : Op) (err : RepoError)
    (h : ⟨op, some err⟩ ∈ (serve lib pool ep r st).2.trace) (hnf : err.isNotFound = true)
    (hrb : ¬ (ep = Endpoint.Update ∧ op = Op.Get)) :
    (serve lib pool ep r st).1 = httpError "subscription not found" 404 := by
  cases ep
  · -- Create
    simp only [serve, SubscriptionHandler.Create, call, World.start] at h ⊢
    rcases hd : lib.decodeRequest r.body with e | req
    · simp [hd] at h
    · simp only [hd] at h ⊢
      rcases hm : mapRequestToModel lib.upper req with msg | sub
      · simp [hm] at h
      · simp only [hm] at h ⊢
        rcases hc : Repository.Create pool sub st with ⟨res, st1⟩
        cases res with
        | error e2 =>
          have hf := Repository_Create_error pool sub st e2 (by rw [hc])
          simp [hc, errorOf] at h
          obtain ⟨rfl, rfl⟩ := h
          rw [hf] at hnf
          cases hnf
        | ok sub1 => simp [hc, errorOf] at h
  · -- List
    simp only [serve, SubscriptionHandler.List, call, World.start] at h ⊢
    rcases hc : Repository.List pool st with ⟨res, st1⟩
    cases res with
    | error e2 =>
      have hf := Repository_List_error pool st e2 (by rw [hc])
      simp [hc, errorOf] at h
      obtain ⟨rfl, rfl⟩ := h
      rw [hf] at hnf
      cases hnf
    | ok subs => simp [hc, errorOf] at h
  · -- Get
    simp only [serve, SubscriptionHandler.Get, call, World.start] at h ⊢
    rcases hu : lib.uuidParse r.idParam with e | id
    · simp [hu] at h
    · simp only [hu] at h ⊢
      rcases hc : Repository.Get pool id st with ⟨res, st1⟩
      cases res with
      | error e2 =>
        cases hn : e2.isNotFound
        · simp [hc, errorOf, hn] at h
          obtain ⟨rfl, rfl⟩ := h
          rw [hn] at hnf
          cases hnf
        · simp [hc, errorOf, hn]
      | ok sub => simp [hc, errorOf] at h
  · -- Update
    simp only [serve, SubscriptionHandler.Update, call, World.start] at h ⊢
    rcases hu : lib.uuidParse r.idParam with e | id
    · simp [hu] at h
    · simp only [hu] at h ⊢
      rcases hd : lib.decodeRequest r.body with e | req
      · simp [hd] at h
      · simp only [hd] at h ⊢
        rcases hm : mapRequestToModel lib.upper req with msg | sub
        · simp [hm] at h
        · simp only [hm] at h ⊢
          rcases hc : Repository.Update pool { sub with ID := id } st with ⟨res, st1⟩
          cases res with
          | error e2 =>
            cases hn : e2.isNotFound
            · simp [hc, errorOf, hn] at h
              obtain ⟨rfl, rfl⟩ := h
              rw [hn] at hnf
              cases hnf
            · simp [hc, errorOf, hn]
          | ok sub1 =>
            rcases hg : Repository.Get pool id st1 with ⟨res2, st2⟩
            cases res2 with
            | error e3 =>
              simp [hc, hg, errorOf] at h
              obtain ⟨rfl, rfl⟩ := h
              exact absurd ⟨rfl, rfl⟩ hrb
            | ok updated => simp [hc, hg, errorOf] at h
  · -- Delete
    simp only [serve, SubscriptionHandler.Delete, call, World.start] at h ⊢
    rcases hu : lib.uuidParse r.idParam with e | id
    · simp [hu] at h
    · simp only [hu] at h ⊢
      rcases hc : Repository.Delete pool id st with ⟨res, st1⟩
      cases res with
      | error e2 =>
        cases hn : e2.isNotFound
        · simp [hc, errorOf, hn] at h
          obtain ⟨rfl, rfl⟩ := h
          rw [hn] at hnf
          cases hnf
        · simp [hc, errorOf, hn]
      | ok u => simp [hc, errorOf] at h
  · -- Summary
    simp only [serve, SubscriptionHandler.Summary, call, World.start] at h ⊢
    by_cases hq : r.monthQuery = ""
    · simp [hq] at h
    · simp only [hq, if_false] at h ⊢
      rcases hp : parseMonth r.monthQuery with e | period
      · simp [hp] at h
      · simp only [hp] at h ⊢
        rcases hc : Repository.MonthlySummary pool period st with ⟨res, st1⟩
        cases res with
        | error e2 =>
          have hf := Repository_MonthlySummary_error pool period st e2 (by rw [hc])
          simp [hc, errorOf] at h
          obtain ⟨rfl, rfl⟩ := h
          rw [hf] at hnf
          cases hnf
        | ok total => simp [hc, errorOf] at h

/-- C7 at its failing input: the `Update` handler gets a well-formed identifier
and a valid body, `Repository.Update` succeeds, the row is deleted by a
concurrent request, and the read-back `Repository.Get` fails with `ErrNotFound`;
the handler answers 500 "failed to fetch subscription", not 404. -/
theorem Update_readback_notFound_is_500 :
    (serve sampleLib racingPool Endpoint.Update ⟨"7", "good", ""⟩ true).2.trace
        = [⟨Op.Update, none⟩, ⟨Op.Get, some RepoError.ErrNotFound⟩]
      ∧ (serve sampleLib racingPool Endpoint.Update ⟨"7", "good", ""⟩ true).1
        = httpError "failed to fetch subscription" 500
      ∧ (serve sampleLib racingPool Endpoint.Update ⟨"7", "good", ""⟩ true).1.status ≠ 404 := by
  decide

/-- C8: in each of the six handlers, when a repository call fails with an error
other than `ErrNotFound`, the status is 500 and the body is the fixed message of
that call; a second run in which the same call fails with another such error
gives the same response. -/
theorem storage_failure_fixed_response {σ : Type} (lib : Lib) (ep : Endpoint) (r : Request)
    (pool pool2 : Pool σ) (st st2 : σ) (op : Op) (err err2 : RepoError)
    (h : ⟨op, some err⟩ ∈ (serve lib pool ep r st).2.trace) (hnf : err.isNotFound = false)
    (h2 : ⟨op, some err2⟩ ∈ (serve lib pool2 ep r st2).2.trace)
    (hnf2 : err2.isNotFound = false) :
    (serve lib pool ep r st).1.status = 500
      ∧ (serve lib pool ep r st).1.body = Body.text (failureMessage op ++ "\n")
      ∧ (serve lib pool2 ep r st2).1 = (serve lib pool ep r st).1 := by
  have e1 := serve_storage_failure lib pool ep r st op err h hnf
  have e2 := serve_storage_failure lib pool2 ep r st2 op err2 h2 hnf2
  rw [e1, e2]
  exact ⟨rfl, rfl, rfl⟩

/-- Witness of C8: each of the six handlers on a store that refuses the
connection and on one that times out. -/
theorem storage_failure_fixed_response_witness :
    (failedRun Endpoint.Create ⟨"", "good", ""⟩ "timeout"
        = httpError "failed to create subscription" 500
      ∧ failedRun Endpoint.Create ⟨"", "good", ""⟩ "refused"
        = failedRun Endpoint.Create ⟨"", "good", ""⟩ "timeout")
    ∧ (failedRun Endpoint.List ⟨"", "", ""⟩ "timeout"
        = httpError "failed to list subscriptions" 500
      ∧ failedRun Endpoint.List ⟨"", "", ""⟩ "refused"
        = failedRun Endpoint.List ⟨"", "", ""⟩ "timeout")
    ∧ (failedRun Endpoint.Get ⟨"7", "", ""⟩ "timeout"
        = httpError "failed to fetch subscription" 500
      ∧ failedRun Endpoint.Get ⟨"7", "", ""⟩ "refused"
        = failedRun Endpoint.Get ⟨"7", "", ""⟩ "timeout")
    ∧ (failedRun Endpoint.Update ⟨"7", "good", ""⟩ "timeout"
        = httpError "failed to update subscription" 500
      ∧ failedRun Endpoint.Update ⟨"7", "good", ""⟩ "refused"
        = failedRun Endpoint.Update ⟨"7", "good", ""⟩ "timeout")
    ∧ (failedRun Endpoint.Delete ⟨"7", "", ""⟩ "timeout"
        = httpError "failed to delete subscription" 500
      ∧ failedRun Endpoint.Delete ⟨"7", "", ""⟩ "refused"
        = failedRun Endpoint.Delete ⟨"7", "", ""⟩ "timeout")
    ∧ (failedRun Endpoint.Summary ⟨"", "", "2024-03"⟩ "timeout"
        = httpError "failed to fetch summary" 500
      ∧ failedRun Endpoint.Summary ⟨"", "", "2024-03"⟩ "refused"
        = failedRun Endpoint.Summary ⟨"", "", "2024-03"⟩ "timeout") := by
  have run : ∀ (ep : Endpoint) (r : Request) (op : Op),
      (⟨op, some (RepoError.driver ⟨false, "timeout"⟩)⟩ : Event)
        ∈ (serve sampleLib (failingPool "timeout") ep r ()).2.trace →
      (⟨op, some (RepoError.driver ⟨false, "refused"⟩)⟩ : Event)
        ∈ (serve sampleLib (failingPool "refused") ep r ()).2.trace →
      failedRun ep r "timeout" = httpError (failureMessage op) 500
        ∧ failedRun ep r "refused" = failedRun ep r "timeout" := by
    intro ep r op h1 h2
    have h := storage_failure_fixed_response sampleLib ep r (failingPool "timeout")
      (failingPool "refused") () () op _ _ h1 rfl h2 rfl
    refine ⟨?_, h.2.2⟩
    show (serve sampleLib (failingPool "timeout") ep r ()).1 = httpError (failureMessage op) 500
    cases hr : (serve sampleLib (failingPool "timeout") ep r ()).1 with
    | mk status body =>
      rw [hr] at h
      simp only at h
      rw [h.1, h.2.1]
      rfl
  exact ⟨run Endpoint.Create ⟨"", "good", ""⟩ Op.Create (by decide) (by decide),
    run Endpoint.List ⟨"", "", ""⟩ Op.List (by decide) (by decide),
    run Endpoint.Get ⟨"7", "", ""⟩ Op.Get (by decide) (by decide),
    run Endpoint.Update ⟨"7", "good", ""⟩ Op.Update (by decide) (by decide),
    run Endpoint.Delete ⟨"7", "", ""⟩ Op.Delete (by decide) (by decide),
    run Endpoint.Summary ⟨"", "", "2024-03"⟩ Op.MonthlySummary (by decide) (by decide)⟩

/-- C9: in the `Create` handler, and in the `Update` handler given a well-formed
identifier, when the body fails to decode or `mapRequestToModel` rejects the
decoded request, the status is 400, the handler makes no repository call and
the store is as before; when the request was rejected by `mapRequestToModel`
the body is its message. -/
theorem invalid_input_no_store_call {σ : Type} (lib : Lib) (pool : Pool σ) (ep : Endpoint)
    (r : Request) (st : σ)
    (hep : ep = Endpoint.Create
      ∨ (ep = Endpoint.Update ∧ ∃ id, lib.uuidParse r.idParam = Except.ok id))
    (hbad : (∃ e, lib.decodeRequest r.body = Except.error e)
      ∨ ∃ req msg, lib.decodeRequest r.body = Except.ok req
          ∧ mapRequestToModel lib.upper req = Except.error msg) :
    (serve lib pool ep r st).1.status = 400
      ∧ (serve lib pool ep r st).2.trace = []
      ∧ (serve lib pool ep r st).2.store = st
      ∧ ∀ req msg, lib.decodeRequest r.body = Except.ok req →
          mapRequestToModel lib.upper req = Except.error msg →
          (serve lib pool ep r st).1.body = Body.text (msg ++ "\n") := by
  rcases hep with rfl | ⟨rfl, id, hid⟩
  · rcases hbad with ⟨e, he⟩ | ⟨req, msg, hreq, hmsg⟩
    · simp [serve, SubscriptionHandler.Create, he, httpError, World.start]
    · simp only [serve, SubscriptionHandler.Create, hreq, hmsg, httpError, World.start]
      refine ⟨trivial, trivial, trivial, ?_⟩
      intro req1 msg1 h1 h2
      cases h1
      rw [hmsg] at h2
      cases h2
      rfl
  · rcases hbad with ⟨e, he⟩ | ⟨req, msg, hreq, hmsg⟩
    · simp [serve, SubscriptionHandler.Update, hid, he, httpError, World.start]
    · simp only [serve, SubscriptionHandler.Update, hid, hreq, hmsg, httpError, World.start]
      refine ⟨trivial, trivial, trivial, ?_⟩
      intro req1 msg1 h1 h2
      cases h1
      rw [hmsg] at h2
      cases h2
      rfl

/-- Witness of C9: a create request with amount_cents -1, a create request whose
body does not decode, and an update request with amount_cents -1, each on a
store that would fail any statement. -/
theorem invalid_input_no_store_call_witness :
    ((serve sampleLib (failingPool "down") Endpoint.Create ⟨"", "negative", ""⟩ ()).1
        = httpError "amount_cents must be non-negative" 400
      ∧ (serve sampleLib (failingPool "down") Endpoint.Create ⟨"", "negative", ""⟩ ()).2.trace
        = [])
    ∧ ((serve sampleLib (failingPool "down") Endpoint.Create ⟨"", "not json", ""⟩ ()).1.status = 400
      ∧ (serve sampleLib (failingPool "down") Endpoint.Create ⟨"", "not json", ""⟩ ()).2.trace = [])
    ∧ ((serve sampleLib (failingPool "down") Endpoint.Update ⟨"7", "negative", ""⟩ ()).1
        = httpError "amount_cents must be non-negative" 400
      ∧ (serve sampleLib (failingPool "down") Endpoint.Update ⟨"7", "negative", ""⟩ ()).2.trace
        = []) := by
  have h1 := invalid_input_no_store_call sampleLib (failingPool "down") Endpoint.Create
    ⟨"", "negative", ""⟩ () (Or.inl rfl)
    (Or.inr ⟨{ sampleRequest with AmountCents := -1 }, "amount_cents must be non-negative",
      by decide, by decide⟩)
  have h2 := invalid_input_no_store_call sampleLib (failingPool "down") Endpoint.Create
    ⟨"", "not json", ""⟩ () (Or.inl rfl) (Or.inl ⟨"json: cannot decode", by decide⟩)
  have h3 := invalid_input_no_store_call sampleLib (failingPool "down") Endpoint.Update
    ⟨"7", "negative", ""⟩ () (Or.inr ⟨rfl, ⟨7⟩, by decide⟩)
    (Or.inr ⟨{ sampleRequest with AmountCents := -1 }, "amount_cents must be non-negative",
      by decide, by decide⟩)
  exact ⟨⟨by decide, h1.2.1⟩, ⟨h2.1, h2.2.1⟩, ⟨by decide, h3.2.1⟩⟩

end Subscriptions
